import Mathlib

/-!
Shallow embedding of the JavSP smart monitor
(src/network-deployment/scripts/monitoring/smart_monitor.py).

Machine conventions:
- an os.stat result is modelled as an optional pair (st_size, st_mtime) of
  naturals; a filesystem error (OSError / FileNotFoundError) is the
  value none;
- file contents are modelled as lists of bytes (naturals);
- times are naturals (seconds);
- Python sets of paths are modelled as lists with membership semantics.
-/

namespace SmartMonitor

/-- Job status, the four string values of ProcessingJob.status. -/
inductive Status where
  | pending
  | processing
  | completed
  | failed
deriving DecidableEq, Repr

/-- ProcessingJob dataclass (smart_monitor.py lines 32-46).
hash_md5 is modelled as the optional byte sequence fed to MD5 (equal
inputs produce equal MD5 digests, which is all the development uses). -/
structure ProcessingJob where
  file_path : String
  size : Nat
  detected_time : Nat
  last_modified : Nat
  hash_md5 : Option (List Nat) := none
  status : Status := .pending
deriving DecidableEq, Repr

/-- The stats dictionary (lines 67-72).  last_activity is an optional
timestamp string. -/
structure Stats where
  files_processed : Nat
  files_failed : Nat
  total_processing_time : Nat
  last_activity : Option String
deriving DecidableEq, Repr

/-- The monitor's mutable state relevant to the queue/worker/state-store
claims: processing_queue, completed_files, stats (lines 57-72). -/
structure MonitorState where
  processing_queue : List ProcessingJob
  completed_files : List String
  stats : Stats
deriving DecidableEq, Repr

/-- is_file_stable (lines 163-175): take a stat sample, sleep one
stability_check_interval, take a second sample; return true iff size and
mtime agree across the two samples and the size is at least
min_file_size_mb * 1024 * 1024.  A stat failure (either sample none)
returns false, never raises. -/
def is_file_stable (stat1 stat2 : Option (Nat × Nat))
    (min_file_size_mb : Nat) : Bool :=
  match stat1, stat2 with
  | some (size1, mtime1), some (size2, mtime2) =>
      size1 == size2 && mtime1 == mtime2 &&
        decide (size1 ≥ min_file_size_mb * 1024 * 1024)
  | _, _ => false

/-- The consecutive-success counter of the stability loop in process_file
(lines 226-236): stability_checks starts at 0; each iteration increments
it on a successful momentary check and resets it to 0 otherwise.
stability_checks_after check k is the counter value after k iterations,
where check i is the outcome of the momentary check of iteration i. -/
def stability_checks_after (check : Nat → Bool) : Nat → Nat
  | 0 => 0
  | k + 1 => if check k then stability_checks_after check k + 1 else 0

/-- The momentary check of loop iteration k, for a file whose stat samples
over time are given by size and mtime: iteration k stats the file at time
interval*k, sleeps one interval, and stats it again at interval*(k+1). -/
def loop_check (size mtime : Nat → Nat) (interval min_file_size_mb k : Nat) :
    Bool :=
  is_file_stable (some (size (interval * k), mtime (interval * k)))
    (some (size (interval * k + interval), mtime (interval * k + interval)))
    min_file_size_mb

/-- A directory entry seen by the scanner's rglob walk.  The extension of
the final path component (Python Path(file_path).suffix) is carried as a
field, since the claims do not depend on how it is parsed out of the
path string. -/
structure FsEntry where
  path : String
  suffix : String
  is_file : Bool
deriving DecidableEq, Repr

/-- is_video_file (lines 158-161): lower-case the suffix and test
membership in the configured extension list. -/
def is_video_file (video_extensions : List String) (suffix : String) : Bool :=
  video_extensions.contains suffix.toLower

/-- scan_for_new_files (lines 177-195): walk the directory entries in
traversal order and keep the paths of regular files with an accepted
video extension that are neither in completed_files nor already carried
by a job in the processing queue. -/
def scan_for_new_files (fs : List FsEntry) (video_extensions : List String)
    (completed_files : List String) (processing_queue : List ProcessingJob) :
    List String :=
  (fs.filter (fun e =>
    e.is_file && is_video_file video_extensions e.suffix &&
    !(completed_files.contains e.path) &&
    !(processing_queue.any (fun job => job.file_path == e.path)))).map
    (fun e => e.path)

/-- add_to_queue (lines 197-213): stat the file; on success append a
fresh pending job to the processing queue; on a stat error log and leave
the queue unchanged.  The function returns nothing in the source; here it
returns the new queue.  now is the datetime.now() timestamp. -/
def add_to_queue (processing_queue : List ProcessingJob) (file_path : String)
    (stat : Option (Nat × Nat)) (now : Nat) : List ProcessingJob :=
  match stat with
  | none => processing_queue
  | some (st_size, st_mtime) =>
      processing_queue ++
        [{ file_path := file_path, size := st_size, detected_time := now,
           last_modified := st_mtime }]

/-- The enqueue phase of one iteration of the run loop (lines 372-374):
push every path returned by scan_for_new_files with add_to_queue.
stat_of gives the os.stat result for each path at push time. -/
def scan_and_enqueue (st : MonitorState) (fs : List FsEntry)
    (video_extensions : List String) (stat_of : String → Option (Nat × Nat))
    (now : Nat) : List ProcessingJob :=
  (scan_for_new_files fs video_extensions st.completed_files
      st.processing_queue).foldl
    (fun q p => add_to_queue q p (stat_of p) now) st.processing_queue

/-- The outcome of one run of the external processor inside process_file:
the subprocess exited with a return code, the invocation raised an
exception, or the stability loop was aborted because is_running went
false (line 235-236, which returns before any invocation). -/
inductive RunOutcome where
  | exited (returncode : Int)
  | raised
  | aborted
deriving DecidableEq, Repr

/-- Line 222 of process_file: the job's status is set to "processing"
before the stability loop and the external invocation. -/
def process_file_start (job : ProcessingJob) : ProcessingJob :=
  { job with status := .processing }

/-- process_file (lines 215-286) after the status has been set to
processing: on exit code 0 the job becomes completed, files_processed
and total_processing_time grow and the file path joins completed_files;
on a non-zero exit code or an exception the job becomes failed and
files_failed grows; on abort (is_running false during the stability
loop) nothing further changes and the job stays processing.
process_time is the measured wall time of the invocation, hash the
optional fingerprint computed at lines 239-240. -/
def process_file_finish (st : MonitorState) (job : ProcessingJob)
    (outcome : RunOutcome) (process_time : Nat) (hash : Option (List Nat)) :
    MonitorState × ProcessingJob :=
  let job1 := { process_file_start job with hash_md5 := hash }
  match outcome with
  | .aborted => (st, process_file_start job)
  | .exited returncode =>
      if returncode == 0 then
        ({ st with
            stats := { st.stats with
              files_processed := st.stats.files_processed + 1,
              total_processing_time :=
                st.stats.total_processing_time + process_time },
            completed_files := st.completed_files ++ [job.file_path] },
         { job1 with status := .completed })
      else
        ({ st with
            stats := { st.stats with
              files_failed := st.stats.files_failed + 1 } },
         { job1 with status := .failed })
  | .raised =>
      ({ st with
          stats := { st.stats with
            files_failed := st.stats.files_failed + 1 } },
       { job1 with status := .failed })

/-- Replace the first pending job of the queue by j1.  Python mutates the
job object in place, and the queue holds a reference to it; the worker
always picks the first pending job (pending_jobs[0], line 295), so the
update lands on exactly that element. -/
def replace_first_pending (q : List ProcessingJob) (j1 : ProcessingJob) :
    List ProcessingJob :=
  match q with
  | [] => []
  | j :: rest =>
      if j.status == .pending then j1 :: rest
      else j :: replace_first_pending rest j1

/-- One iteration of the worker loop process_queue (lines 288-302): take
the first pending job if any, run process_file on it, then keep only the
jobs whose status is still pending.  With no pending job the iteration
only sleeps. -/
def process_queue_step (st : MonitorState) (outcome : RunOutcome)
    (process_time : Nat) (hash : Option (List Nat)) : MonitorState :=
  match st.processing_queue.find? (fun j => j.status == .pending) with
  | none => st
  | some job =>
      let r := process_file_finish st job outcome process_time hash
      { r.1 with
          processing_queue :=
            (replace_first_pending st.processing_queue r.2).filter
              (fun j => j.status == .pending) }

/-- The engine state snapshot written by save_state (lines 304-318): the
stats dictionary is serialized whole, completed_files as a list,
together with the queue length, the current job if any, and a
timestamp. -/
structure SavedState where
  stats : Stats
  completed_files : List String
  queue_length : Nat
  current_job : Option ProcessingJob
  timestamp : String
deriving DecidableEq, Repr

/-- save_state (lines 304-318), the successfully-written snapshot. -/
def save_state (st : MonitorState) (current_job : Option ProcessingJob)
    (now : String) : SavedState :=
  { stats := st.stats, completed_files := st.completed_files,
    queue_length := st.processing_queue.length, current_job := current_job,
    timestamp := now }

/-- The fresh in-memory state a monitor starts from (lines 57-72): empty
queue, empty completed set, zeroed counters, no last activity. -/
def initial_state : MonitorState :=
  { processing_queue := [], completed_files := [],
    stats := { files_processed := 0, files_failed := 0,
               total_processing_time := 0, last_activity := none } }

/-- load_state (lines 320-331): with no readable state file (none) the
in-memory state is untouched; otherwise stats.update(saved stats)
replaces every counter (the snapshot carries all four keys, having been
written from the whole stats dictionary) and
completed_files.update(saved list) unions the saved paths in. -/
def load_state (saved : Option SavedState) (st : MonitorState) :
    MonitorState :=
  match saved with
  | none => st
  | some s =>
      { st with stats := s.stats,
                completed_files := st.completed_files ++ s.completed_files }

/-- JSON-like configuration documents, as loaded by json.load. -/
inductive JValue where
  | obj : List (String × JValue) → JValue
  | arr : List JValue → JValue
  | str : String → JValue
  | num : Int → JValue
  | bool : Bool → JValue
  | null : JValue

/-- How dict.update treats one existing entry of the default document: it
keeps its key and takes the user document's value when the user document
has that key. -/
def upd_entry (user_config : List (String × JValue))
    (kv : String × JValue) : String × JValue :=
  match user_config.find? (fun kv2 => kv2.1 == kv.1) with
  | some kv2 => (kv.1, kv2.2)
  | none => kv

/-- default_config.update(user_config) (line 102): Python dict.update, a
single-level overlay.  Every existing key keeps its position but takes
the user value when the user document has that key; user keys absent
from the defaults are appended in order. -/
def dict_update (default_config user_config : List (String × JValue)) :
    List (String × JValue) :=
  default_config.map (upd_entry user_config) ++
  user_config.filter (fun kv2 =>
    !(default_config.any (fun kv => kv.1 == kv2.1)))

/-- Modelled from the spec: the merge policy of section 4.1: a recursive
overlay under which a user key replaces the default at its position,
nested mapping-typed values merge key-by-key recursively, and
non-mapping values (sequences included) replace entirely.  The source
has no such function (load_config uses dict.update); this definition
exists to be compared with dict_update.  fuel bounds the recursion depth
and exceeds the depth of any document it is applied to here. -/
def recursive_overlay (fuel : Nat) (default user : JValue) : JValue :=
  match fuel, default, user with
  | f + 1, .obj d, .obj u =>
      .obj
        ((d.map (fun kv =>
            match u.find? (fun kv2 => kv2.1 == kv.1) with
            | some kv2 => (kv.1, recursive_overlay f kv.2 kv2.2)
            | none => kv)) ++
         u.filter (fun kv2 => !(d.any (fun kv => kv.1 == kv2.1))))
  | _, _, u => u

/-- calculate_file_hash (lines 125-156), the byte sequence fed to MD5:
the first min(1MB, size) bytes of the file, then everything from
size - min(1MB, size) to the end. -/
def hashed_bytes (content : List Nat) : List Nat :=
  content.take (1024 * 1024) ++
    content.drop (content.length - min (1024 * 1024) content.length)

/-- calculate_file_hash (lines 125-156): none when hash checking is
disabled; none when reading the file raises (content unavailable);
otherwise the fingerprint of the sampled head and tail bytes, modelled
as the byte sequence fed to MD5 (equal inputs give equal digests). -/
def calculate_file_hash (enable_hash_check : Bool)
    (content : Option (List Nat)) : Option (List Nat) :=
  if !enable_hash_check then none
  else
    match content with
    | none => none
    | some c => some (hashed_bytes c)

/-- Number of jobs in a queue that carry a given source path. -/
def path_count (q : List ProcessingJob) (p : String) : Nat :=
  q.countP (fun j => j.file_path == p)

/-! Helper lemmas shared by the claim theorems. -/

theorem is_file_stable_true_iff (size1 mtime1 size2 mtime2 mb : Nat) :
    is_file_stable (some (size1, mtime1)) (some (size2, mtime2)) mb = true ↔
      size1 = size2 ∧ mtime1 = mtime2 ∧ mb * 1024 * 1024 ≤ size1 := by
  simp [is_file_stable, and_assoc]

/-- C5 (functional correctness of the momentary stability check): with two
successful stat samples, is_file_stable returns true iff size and mtime
are identical across the samples and the size meets the configured
minimum of min_file_size_mb megabytes; when either stat raises (sample
none, covering a vanished or unreadable file) it returns false instead
of propagating the error. -/
theorem is_file_stable_correct (size1 mtime1 size2 mtime2 mb : Nat)
    (stat1 stat2 : Option (Nat × Nat)) :
    (is_file_stable (some (size1, mtime1)) (some (size2, mtime2)) mb = true ↔
      size1 = size2 ∧ mtime1 = mtime2 ∧ mb * 1024 * 1024 ≤ size1) ∧
    is_file_stable none stat2 mb = false ∧
    is_file_stable stat1 none mb = false := by
  refine ⟨is_file_stable_true_iff size1 mtime1 size2 mtime2 mb, rfl, ?_⟩
  rcases stat1 with _ | ⟨s, m⟩ <;> rfl

/-- C2 (stability invariant): for a file whose size strictly grows across
every sampling interval, every momentary check of the confirmation loop
fails, so the consecutive-success counter stays at zero and never
reaches the required count N. -/
theorem growing_file_never_ready (size mtime : Nat → Nat)
    (interval mb N : Nat) (hN : 0 < N)
    (hgrow : ∀ t, size t < size (t + interval)) :
    ∀ k, stability_checks_after (loop_check size mtime interval mb) k = 0 ∧
      stability_checks_after (loop_check size mtime interval mb) k ≠ N := by
  have hcheck : ∀ k, loop_check size mtime interval mb k = false := by
    intro k
    have h := hgrow (interval * k)
    simp only [loop_check, is_file_stable]
    simp only [Bool.and_eq_false_iff, beq_eq_false_iff_ne, ne_eq,
      decide_eq_false_iff_not, not_le]
    left; left
    omega
  have hzero : ∀ k,
      stability_checks_after (loop_check size mtime interval mb) k = 0 := by
    intro k
    induction k with
    | zero => rfl
    | succ n _ => simp [stability_checks_after, hcheck n]
  intro k
  refine ⟨hzero k, ?_⟩
  rw [hzero k]
  omega

/-- Witness for C2: a file adding one byte per second, interval 10,
required count 3: after 5 loop iterations the counter is still 0. -/
theorem growing_file_never_ready_witness :
    0 < 3 ∧
      stability_checks_after
        (loop_check (fun t => t) (fun _ => 0) 10 200) 5 = 0 :=
  ⟨by omega,
   (growing_file_never_ready (fun t => t) (fun _ => 0) 10 200 3 (by omega)
      (fun t => by show t < t + 10; omega) 5).1⟩

/-- C9 (queue cleanup invariant): whenever the worker iteration finds a
pending job to handle, the cleanup at the end of the iteration leaves
only status-pending jobs in the processing queue. -/
theorem queue_all_pending_after_step (st : MonitorState) (o : RunOutcome)
    (pt : Nat) (h : Option (List Nat))
    (hpending :
      st.processing_queue.any (fun j => j.status == .pending) = true) :
    ∀ j ∈ (process_queue_step st o pt h).processing_queue,
      j.status = .pending := by
  unfold process_queue_step
  cases hf : st.processing_queue.find? (fun j => j.status == .pending) with
  | none =>
      rw [List.find?_eq_none] at hf
      rw [List.any_eq_true] at hpending
      obtain ⟨j, hj, hjp⟩ := hpending
      exact absurd hjp (hf j hj)
  | some job =>
      intro j hj
      simp only [List.mem_filter] at hj
      simpa using hj.2

/-- Witness for C9: two pending jobs, successful run on the first; the
second job survives the cleanup and its status is pending. -/
theorem queue_all_pending_after_step_witness :
    ProcessingJob.status
        { file_path := "b.mp4", size := 222298112, detected_time := 0,
          last_modified := 0 } = .pending :=
  queue_all_pending_after_step
    { processing_queue :=
        [{ file_path := "a.mp4", size := 314572800, detected_time := 0,
           last_modified := 0 },
         { file_path := "b.mp4", size := 222298112, detected_time := 0,
           last_modified := 0 }],
      completed_files := [],
      stats := { files_processed := 0, files_failed := 0,
                 total_processing_time := 0, last_activity := none } }
    (.exited 0) 10 none (by decide)
    { file_path := "b.mp4", size := 222298112, detected_time := 0,
      last_modified := 0 } (by decide)

/-- C6 (failure path of process_file): on exit code 1 the job becomes
failed, files_failed grows by exactly one, files_processed is untouched,
and completed_files is unchanged, so the path stays outside the
Completed-Set and the scanner can rediscover the file. -/
theorem exit_one_marks_failed (st : MonitorState) (job : ProcessingJob)
    (pt : Nat) (h : Option (List Nat)) :
    (process_file_finish st job (.exited 1) pt h).2.status = .failed ∧
    (process_file_finish st job (.exited 1) pt h).1.stats.files_failed =
      st.stats.files_failed + 1 ∧
    (process_file_finish st job (.exited 1) pt h).1.stats.files_processed =
      st.stats.files_processed ∧
    (process_file_finish st job (.exited 1) pt h).1.completed_files =
      st.completed_files :=
  ⟨rfl, rfl, rfl, rfl⟩

/-- C7 (state round-trip): loading a saved snapshot into a fresh monitor
state reproduces the stats counters exactly and reproduces
completed-file membership exactly. -/
theorem state_round_trip (st : MonitorState) (cur : Option ProcessingJob)
    (now : String) :
    (load_state (some (save_state st cur now)) initial_state).stats =
      st.stats ∧
    ∀ p, p ∈ (load_state (some (save_state st cur now))
        initial_state).completed_files ↔ p ∈ st.completed_files := by
  refine ⟨rfl, fun p => ?_⟩
  simp [load_state, save_state, initial_state]

theorem stability_checks_after_le (check : Nat → Bool) (m : Nat) :
    stability_checks_after check m ≤ m := by
  induction m with
  | zero => exact Nat.le_refl 0
  | succ n ih =>
      simp only [stability_checks_after]
      by_cases h : check n = true
      · rw [if_pos h]; omega
      · rw [if_neg h]; omega

theorem stability_checks_after_true (check : Nat → Bool) (m : Nat) :
    ∀ i, i < stability_checks_after check m → check (m - 1 - i) = true := by
  induction m with
  | zero => intro i hi; simp [stability_checks_after] at hi
  | succ n ih =>
      intro i hi
      simp only [stability_checks_after] at hi
      by_cases h : check n = true
      · rw [if_pos h] at hi
        match i with
        | 0 => simpa using h
        | j + 1 =>
            have hj := ih j (by omega)
            have : n + 1 - 1 - (j + 1) = n - 1 - j := by omega
            rw [this]
            exact hj
      · rw [if_neg h] at hi
        omega

/-- C8 (scenario A): with sampling interval 5 seconds and required
consecutive count 3, for a file whose size still grows over every
5-second window that starts before instant T, the confirmation loop can
only reach counter value 3 after m iterations with 5 * m at least
T + 15 — each iteration blocks one 5-second interval, so readiness comes
no earlier than 15 seconds after the size stops changing; and a pending
job set processing by process_file is marked completed when the external
command exits 0. -/
theorem scenario_a (size mtime : Nat → Nat) (mb T m : Nat)
    (st : MonitorState) (job : ProcessingJob) (pt : Nat)
    (h : Option (List Nat))
    (hgrow : ∀ k, 5 * k < T → size (5 * k) < size (5 * k + 5))
    (hm : stability_checks_after (loop_check size mtime 5 mb) m = 3)
    (hjob : job.status = .pending) :
    T + 15 ≤ 5 * m ∧
    job.status = .pending ∧
    (process_file_start job).status = .processing ∧
    (process_file_finish st job (.exited 0) pt h).2.status = .completed := by
  refine ⟨?_, hjob, rfl, rfl⟩
  have hle : 3 ≤ m := hm ▸ stability_checks_after_le _ m
  have h2 : loop_check size mtime 5 mb (m - 1 - 2) = true :=
    stability_checks_after_true _ m 2 (by omega)
  have h3 : m - 1 - 2 = m - 3 := by omega
  rw [h3] at h2
  have heq :=
    ((is_file_stable_true_iff (size (5 * (m - 3))) (mtime (5 * (m - 3)))
        (size (5 * (m - 3) + 5)) (mtime (5 * (m - 3) + 5)) mb).1 h2).1
  by_contra hlt
  have hT : 5 * (m - 3) < T := by omega
  exact absurd heq (Nat.ne_of_lt (hgrow (m - 3) hT))

/-- Witness for C8: a file already stable from instant T = 0 with size
300 MB; the three checks at iterations 0, 1, 2 succeed, the counter
reaches 3 at m = 3, and 15 is indeed at least T + 15. -/
theorem scenario_a_witness :
    0 + 15 ≤ 5 * 3 ∧
    ProcessingJob.status
        { file_path := "a.mp4", size := 314572800, detected_time := 0,
          last_modified := 0 } = .pending ∧
    (process_file_start
        { file_path := "a.mp4", size := 314572800, detected_time := 0,
          last_modified := 0 }).status = .processing ∧
    (process_file_finish initial_state
        { file_path := "a.mp4", size := 314572800, detected_time := 0,
          last_modified := 0 } (.exited 0) 10 none).2.status = .completed :=
  scenario_a (fun _ => 314572800) (fun _ => 0) 200 0 3 initial_state
    { file_path := "a.mp4", size := 314572800, detected_time := 0,
      last_modified := 0 } 10 none (fun k hk => absurd hk (by omega))
    (by decide) rfl

/-- C1 counterexample: add_to_queue performs no duplicate rejection.
Pushing path "a.mp4" while a pending job for "a.mp4" is already queued
yields two live (pending) jobs for the same source path. -/
theorem add_to_queue_accepts_duplicate :
    (add_to_queue
        [{ file_path := "a.mp4", size := 314572800, detected_time := 0,
           last_modified := 0 }]
        "a.mp4" (some (314572800, 7)) 1).countP
      (fun j => j.file_path == "a.mp4" && j.status == .pending) = 2 := by
  decide

theorem scan_for_new_files_not_queued (fs : List FsEntry)
    (exts comp : List String) (q : List ProcessingJob) :
    ∀ p ∈ scan_for_new_files fs exts comp q, path_count q p = 0 := by
  intro p hp
  simp only [scan_for_new_files, List.mem_map, List.mem_filter] at hp
  obtain ⟨e, ⟨_, hcond⟩, rfl⟩ := hp
  simp only [Bool.and_eq_true, Bool.not_eq_true'] at hcond
  have hany := hcond.2
  unfold path_count
  rw [List.countP_eq_zero]
  intro j hj
  rw [List.any_eq_false] at hany
  exact hany j hj

theorem scan_for_new_files_nodup (fs : List FsEntry)
    (exts comp : List String) (q : List ProcessingJob)
    (hfs : (fs.map FsEntry.path).Nodup) :
    (scan_for_new_files fs exts comp q).Nodup := by
  unfold scan_for_new_files
  exact List.Nodup.sublist
    (List.Sublist.map FsEntry.path (List.filter_sublist fs)) hfs

theorem path_count_add_none (q : List ProcessingJob) (p' : String)
    (now : Nat) (p : String) :
    path_count (add_to_queue q p' none now) p = path_count q p := rfl

theorem path_count_add_some (q : List ProcessingJob) (p' : String)
    (s : Nat × Nat) (now : Nat) (p : String) :
    path_count (add_to_queue q p' (some s) now) p =
      path_count q p + (if p' = p then 1 else 0) := by
  rcases s with ⟨sz, mt⟩
  unfold add_to_queue path_count
  rw [List.countP_append]
  congr 1
  by_cases h : p' = p <;> simp [List.countP_cons, h]

theorem enqueue_fold_dedup (stat_of : String → Option (Nat × Nat))
    (now : Nat) :
    ∀ (L : List String) (q : List ProcessingJob), L.Nodup →
      (∀ p ∈ L, path_count q p = 0) →
      (∀ p, path_count q p ≤ 1) →
      ∀ p, path_count
          (L.foldl (fun q' p' => add_to_queue q' p' (stat_of p') now) q)
          p ≤ 1 := by
  intro L
  induction L with
  | nil => intro q _ _ hq p; exact hq p
  | cons p0 rest ih =>
      intro q hnd h0 hq p
      simp only [List.foldl_cons]
      have hp0 : p0 ∉ rest := (List.nodup_cons.1 hnd).1
      apply ih (add_to_queue q p0 (stat_of p0) now) (List.nodup_cons.1 hnd).2
      · intro p1 hp1
        cases hs : stat_of p0 with
        | none => rw [path_count_add_none]; exact h0 p1 (by simp [hp1])
        | some s =>
            rw [path_count_add_some]
            have hne : p0 ≠ p1 := fun he => hp0 (he ▸ hp1)
            rw [if_neg hne, Nat.add_zero]
            exact h0 p1 (by simp [hp1])
      · intro p1
        cases hs : stat_of p0 with
        | none => rw [path_count_add_none]; exact hq p1
        | some s =>
            rw [path_count_add_some]
            by_cases he : p0 = p1
            · subst he
              rw [if_pos rfl]
              have := h0 p0 (by simp)
              omega
            · rw [if_neg he, Nat.add_zero]; exact hq p1

/-- C1 amended: add_to_queue itself accepts duplicates (see the
counterexample); the dedup of the spec is enforced one layer up, by the
scanner pre-filter.  When every push comes from scan_for_new_files — as
in the run loop — and the walked paths are distinct, a queue holding at
most one job per source path still holds at most one job per source
path after the enqueue phase. -/
theorem scanner_enforces_dedup (st : MonitorState) (fs : List FsEntry)
    (exts : List String) (stat_of : String → Option (Nat × Nat)) (now : Nat)
    (hfs : (fs.map FsEntry.path).Nodup)
    (hq : ∀ p, path_count st.processing_queue p ≤ 1) :
    ∀ p, path_count (scan_and_enqueue st fs exts stat_of now) p ≤ 1 := by
  unfold scan_and_enqueue
  exact enqueue_fold_dedup stat_of now _ st.processing_queue
    (scan_for_new_files_nodup fs exts st.completed_files
      st.processing_queue hfs)
    (scan_for_new_files_not_queued fs exts st.completed_files
      st.processing_queue)
    hq

/-- Witness for the amended C1: scanning a directory with one fresh
video file into an empty queue leaves at most one job for its path. -/
theorem scanner_enforces_dedup_witness :
    path_count
      (scan_and_enqueue initial_state
        [{ path := "/app/input/a.mp4", suffix := ".mp4", is_file := true }]
        [".mp4"] (fun _ => some (314572800, 7)) 1)
      "/app/input/a.mp4" ≤ 1 :=
  scanner_enforces_dedup initial_state
    [{ path := "/app/input/a.mp4", suffix := ".mp4", is_file := true }]
    [".mp4"] (fun _ => some (314572800, 7)) 1 (by decide)
    (fun p => by simp [path_count, initial_state])
    "/app/input/a.mp4"

/-- C4 counterexample: two pending jobs "a.mp4" and "b.mp4" are queued
when the external invocation runs.  On exit code 1 only the pulled job
is marked failed (files_failed becomes 1, not 2) and "b.mp4" stays
pending in the queue, unfailed; on exit code 0 only the pulled job is
marked completed and "b.mp4" stays pending, uncompleted.  So neither is
every wave job failed on a failing run, nor is every processed file's
job completed on a successful one. -/
theorem wave_counterexample :
    ((process_queue_step
        { processing_queue :=
            [{ file_path := "a.mp4", size := 314572800, detected_time := 0,
               last_modified := 0 },
             { file_path := "b.mp4", size := 222298112, detected_time := 0,
               last_modified := 0 }],
          completed_files := [],
          stats := { files_processed := 0, files_failed := 0,
                     total_processing_time := 0, last_activity := none } }
        (.exited 1) 10 none).processing_queue =
      [{ file_path := "b.mp4", size := 222298112, detected_time := 0,
         last_modified := 0 }]) ∧
    ((process_queue_step
        { processing_queue :=
            [{ file_path := "a.mp4", size := 314572800, detected_time := 0,
               last_modified := 0 },
             { file_path := "b.mp4", size := 222298112, detected_time := 0,
               last_modified := 0 }],
          completed_files := [],
          stats := { files_processed := 0, files_failed := 0,
                     total_processing_time := 0, last_activity := none } }
        (.exited 1) 10 none).stats.files_failed = 1) ∧
    ((process_queue_step
        { processing_queue :=
            [{ file_path := "a.mp4", size := 314572800, detected_time := 0,
               last_modified := 0 },
             { file_path := "b.mp4", size := 222298112, detected_time := 0,
               last_modified := 0 }],
          completed_files := [],
          stats := { files_processed := 0, files_failed := 0,
                     total_processing_time := 0, last_activity := none } }
        (.exited 0) 10 none).processing_queue =
      [{ file_path := "b.mp4", size := 222298112, detected_time := 0,
         last_modified := 0 }]) := by
  decide

/-- C4 amended: one external invocation is tied to exactly one job, the
first pending one.  On a non-zero exit or an exception that job alone is
marked failed (files_failed grows by exactly one, and every job left in
the queue is still pending, none failed); on exit 0 that job alone is
marked completed and its path joins completed_files. -/
theorem wave_marks_only_current_job (st : MonitorState)
    (job : ProcessingJob) (pt : Nat) (h : Option (List Nat)) (c : Int)
    (hc : c ≠ 0)
    (hfind : st.processing_queue.find? (fun j => j.status == .pending) =
      some job) :
    (process_file_finish st job (.exited c) pt h).2.status = .failed ∧
    (process_file_finish st job .raised pt h).2.status = .failed ∧
    (process_queue_step st (.exited c) pt h).stats.files_failed =
      st.stats.files_failed + 1 ∧
    (∀ j ∈ (process_queue_step st (.exited c) pt h).processing_queue,
      j.status = .pending) ∧
    (process_file_finish st job (.exited 0) pt h).2.status = .completed ∧
    job.file_path ∈
      (process_file_finish st job (.exited 0) pt h).1.completed_files := by
  have hcc : (c == 0) = false := by simpa using hc
  refine ⟨?_, rfl, ?_, ?_, rfl, ?_⟩
  · simp [process_file_finish, hcc]
  · unfold process_queue_step
    rw [hfind]
    simp [process_file_finish, hcc]
  · intro j hj
    unfold process_queue_step at hj
    rw [hfind] at hj
    simp only [List.mem_filter] at hj
    simpa using hj.2
  · simp [process_file_finish]

/-- Witness for the amended C4: two pending jobs, exit code 1; the
pulled job "a.mp4" is failed, files_failed reaches 1, the surviving
job "b.mp4" is still pending, and on exit 0 the pulled job is completed
with its path recorded. -/
theorem wave_marks_only_current_job_witness :
    (process_file_finish
        { processing_queue :=
            [{ file_path := "a.mp4", size := 314572800, detected_time := 0,
               last_modified := 0 },
             { file_path := "b.mp4", size := 222298112, detected_time := 0,
               last_modified := 0 }],
          completed_files := [],
          stats := { files_processed := 0, files_failed := 0,
                     total_processing_time := 0, last_activity := none } }
        { file_path := "a.mp4", size := 314572800, detected_time := 0,
          last_modified := 0 } (.exited 1) 10 none).2.status = .failed ∧
    (process_file_finish
        { processing_queue :=
            [{ file_path := "a.mp4", size := 314572800, detected_time := 0,
               last_modified := 0 },
             { file_path := "b.mp4", size := 222298112, detected_time := 0,
               last_modified := 0 }],
          completed_files := [],
          stats := { files_processed := 0, files_failed := 0,
                     total_processing_time := 0, last_activity := none } }
        { file_path := "a.mp4", size := 314572800, detected_time := 0,
          last_modified := 0 } .raised 10 none).2.status = .failed ∧
    (process_queue_step
        { processing_queue :=
            [{ file_path := "a.mp4", size := 314572800, detected_time := 0,
               last_modified := 0 },
             { file_path := "b.mp4", size := 222298112, detected_time := 0,
               last_modified := 0 }],
          completed_files := [],
          stats := { files_processed := 0, files_failed := 0,
                     total_processing_time := 0, last_activity := none } }
        (.exited 1) 10 none).stats.files_failed = 0 + 1 ∧
    ProcessingJob.status
        { file_path := "b.mp4", size := 222298112, detected_time := 0,
          last_modified := 0 } = .pending ∧
    (process_file_finish
        { processing_queue :=
            [{ file_path := "a.mp4", size := 314572800, detected_time := 0,
               last_modified := 0 },
             { file_path := "b.mp4", size := 222298112, detected_time := 0,
               last_modified := 0 }],
          completed_files := [],
          stats := { files_processed := 0, files_failed := 0,
                     total_processing_time := 0, last_activity := none } }
        { file_path := "a.mp4", size := 314572800, detected_time := 0,
          last_modified := 0 } (.exited 0) 10 none).2.status = .completed ∧
    "a.mp4" ∈
      (process_file_finish
          { processing_queue :=
              [{ file_path := "a.mp4", size := 314572800, detected_time := 0,
                 last_modified := 0 },
               { file_path := "b.mp4", size := 222298112, detected_time := 0,
                 last_modified := 0 }],
            completed_files := [],
            stats := { files_processed := 0, files_failed := 0,
                       total_processing_time := 0, last_activity := none } }
          { file_path := "a.mp4", size := 314572800, detected_time := 0,
            last_modified := 0 } (.exited 0) 10 none).1.completed_files := by
  have t := wave_marks_only_current_job
    { processing_queue :=
        [{ file_path := "a.mp4", size := 314572800, detected_time := 0,
           last_modified := 0 },
         { file_path := "b.mp4", size := 222298112, detected_time := 0,
           last_modified := 0 }],
      completed_files := [],
      stats := { files_processed := 0, files_failed := 0,
                 total_processing_time := 0, last_activity := none } }
    { file_path := "a.mp4", size := 314572800, detected_time := 0,
      last_modified := 0 } 10 none 1 (by decide) (by decide)
  exact ⟨t.1, t.2.1, t.2.2.1, t.2.2.2.1
    { file_path := "b.mp4", size := 222298112, detected_time := 0,
      last_modified := 0 } (by decide), t.2.2.2.2.1, t.2.2.2.2.2⟩

theorem upd_entry_eq (u : List (String × JValue)) (a : String) (v : JValue) :
    upd_entry u (a, v) =
      (a, ((u.find? (fun kv2 => kv2.1 == a)).map Prod.snd).getD v) := by
  unfold upd_entry
  cases u.find? (fun kv2 => kv2.1 == a) <;> rfl

theorem lookup_cons_self (a : String) (v : JValue)
    (l : List (String × JValue)) :
    List.lookup a ((a, v) :: l) = some v := by
  rw [List.lookup_cons]
  simp

theorem lookup_cons_ne (k a : String) (v : JValue)
    (l : List (String × JValue)) (h : ¬ k = a) :
    List.lookup k ((a, v) :: l) = List.lookup k l := by
  rw [List.lookup_cons]
  have hb : (k == a) = false := by simpa using h
  rw [hb]

theorem lookup_append (l1 l2 : List (String × JValue)) (k : String) :
    List.lookup k (l1 ++ l2) = (List.lookup k l1).or (List.lookup k l2) := by
  induction l1 with
  | nil => simp [List.lookup]
  | cons kv rest ih =>
      rcases kv with ⟨a, v⟩
      by_cases h : k = a
      · subst h
        rw [List.cons_append, lookup_cons_self, lookup_cons_self]
        rfl
      · rw [List.cons_append, lookup_cons_ne _ _ _ _ h,
          lookup_cons_ne _ _ _ _ h, ih]

theorem lookup_eq_find (u : List (String × JValue)) (a : String) :
    List.lookup a u = (u.find? (fun kv2 => kv2.1 == a)).map Prod.snd := by
  induction u with
  | nil => rfl
  | cons kv rest ih =>
      rcases kv with ⟨b, w⟩
      by_cases h : a = b
      · subst h
        rw [lookup_cons_self, List.find?_cons_of_pos _ (by simp)]
        rfl
      · have h' : (b == a) = false := by simpa using fun e => h e.symm
        rw [lookup_cons_ne _ _ _ _ h,
          List.find?_cons_of_neg _ (by simp [h']), ih]

theorem lookup_filter_congr (k : String) (p q : String × JValue → Bool)
    (u : List (String × JValue))
    (h : ∀ kv ∈ u, kv.1 = k → p kv = q kv) :
    List.lookup k (u.filter p) = List.lookup k (u.filter q) := by
  induction u with
  | nil => rfl
  | cons kv rest ih =>
      rcases kv with ⟨a, v⟩
      have ih' := ih (fun kv2 hm hk1 => h kv2 (by simp [hm]) hk1)
      by_cases hk : a = k
      · subst hk
        have hpq := h (a, v) (by simp) rfl
        cases hq : q (a, v)
        · rw [List.filter_cons_of_neg (by simp [hpq, hq]),
            List.filter_cons_of_neg (by simp [hq])]
          exact ih'
        · rw [List.filter_cons_of_pos (by rw [hpq, hq]),
            List.filter_cons_of_pos (by rw [hq]),
            lookup_cons_self, lookup_cons_self]
      · have hk' : ¬ k = a := fun e => hk e.symm
        cases hp : p (a, v) <;> cases hq2 : q (a, v)
        · rw [List.filter_cons_of_neg (by simp [hp]),
            List.filter_cons_of_neg (by simp [hq2])]
          exact ih'
        · rw [List.filter_cons_of_neg (by simp [hp]),
            List.filter_cons_of_pos (by rw [hq2]),
            lookup_cons_ne _ _ _ _ hk']
          exact ih'
        · rw [List.filter_cons_of_pos (by rw [hp]),
            List.filter_cons_of_neg (by simp [hq2]),
            lookup_cons_ne _ _ _ _ hk']
          exact ih'
        · rw [List.filter_cons_of_pos (by rw [hp]),
            List.filter_cons_of_pos (by rw [hq2]),
            lookup_cons_ne _ _ _ _ hk', lookup_cons_ne _ _ _ _ hk']
          exact ih'

/-- C3 counterexample: with a default document carrying the nested
mapping a = {x: 1, y: 2} and a user document carrying a = {x: 3}, the
recursive overlay of the spec keeps y = 2, while the code's dict.update
replaces the nested mapping wholesale and drops y.  Config loading does
not merge nested mappings key-by-key. -/
theorem config_merge_shallow_counterexample :
    JValue.obj (dict_update
        [("a", JValue.obj [("x", JValue.num 1), ("y", JValue.num 2)])]
        [("a", JValue.obj [("x", JValue.num 3)])]) ≠
      recursive_overlay 2
        (JValue.obj
          [("a", JValue.obj [("x", JValue.num 1), ("y", JValue.num 2)])])
        (JValue.obj [("a", JValue.obj [("x", JValue.num 3)])]) := by
  intro h
  have h1 : dict_update
      [("a", JValue.obj [("x", JValue.num 1), ("y", JValue.num 2)])]
      [("a", JValue.obj [("x", JValue.num 3)])] =
      [("a", JValue.obj [("x", JValue.num 3)])] := rfl
  have h2 : recursive_overlay 2
      (JValue.obj
        [("a", JValue.obj [("x", JValue.num 1), ("y", JValue.num 2)])])
      (JValue.obj [("a", JValue.obj [("x", JValue.num 3)])]) =
      JValue.obj
        [("a", JValue.obj [("x", JValue.num 3), ("y", JValue.num 2)])] := rfl
  rw [h1, h2] at h
  simp at h

/-- C3 amended: config loading merges the user document onto the
defaults with dict.update, a single-level overlay: for every key, the
merged document's lookup yields the user document's value when the key
is present there and the default's value otherwise; the replacement is
wholesale, so nested mapping values coming from the user document are
not merged key-by-key (see the counterexample). -/
theorem dict_update_lookup (d u : List (String × JValue)) (k : String) :
    List.lookup k (dict_update d u) =
      (List.lookup k u).or (List.lookup k d) := by
  induction d with
  | nil =>
      simp only [dict_update, List.map_nil, List.nil_append, List.any_nil,
        Bool.not_false, List.filter_true]
      cases List.lookup k u <;> rfl
  | cons kv rest ih =>
      rcases kv with ⟨a, v⟩
      rw [dict_update] at ih ⊢
      simp only [List.map_cons, List.cons_append, upd_entry_eq]
      by_cases hk : k = a
      · subst hk
        rw [lookup_cons_self, lookup_eq_find u k, lookup_cons_self]
        cases u.find? (fun kv2 => kv2.1 == k) <;> rfl
      · have hk2 : ¬ a = k := fun e => hk e.symm
        rw [lookup_cons_ne _ _ _ _ hk, lookup_append,
          lookup_cons_ne _ _ _ _ hk]
        rw [lookup_append] at ih
        have hfilt : List.lookup k
            (u.filter (fun kv2 =>
              !((a, v) :: rest).any (fun kv => kv.1 == kv2.1))) =
            List.lookup k
              (u.filter (fun kv2 =>
                !rest.any (fun kv => kv.1 == kv2.1))) := by
          apply lookup_filter_congr
          intro kv2 _ hkv2
          have ha : (a == kv2.1) = false := by simp [hkv2, hk2]
          simp [List.any_cons, ha]
        rw [hfilt, ih]

theorem hashed_bytes_eq (c : List Nat) :
    hashed_bytes c =
      c.take (1024 * 1024) ++ c.drop (c.length - 1024 * 1024) := by
  unfold hashed_bytes
  rw [show c.length - min (1024 * 1024) c.length =
    c.length - 1024 * 1024 from by omega]

/-- C10: the fingerprint is not a full-content hash.  It feeds MD5 only
the first at-most-1MB and the last at-most-1MB of the file, so two
same-length contents agreeing on those two windows get the same
fingerprint even when their middle bytes differ (see the witness);
with hash checking disabled the computation yields none, and a read
error (content unavailable) also yields none instead of raising. -/
theorem fingerprint_head_tail (c1 c2 : List Nat) (c : Option (List Nat))
    (hlen : c1.length = c2.length)
    (hhead : c1.take (1024 * 1024) = c2.take (1024 * 1024))
    (htail : c1.drop (c1.length - 1024 * 1024) =
      c2.drop (c2.length - 1024 * 1024)) :
    calculate_file_hash true (some c1) = calculate_file_hash true (some c2) ∧
    hashed_bytes c1 =
      c1.take (1024 * 1024) ++ c1.drop (c1.length - 1024 * 1024) ∧
    calculate_file_hash false c = none ∧
    calculate_file_hash true none = none := by
  refine ⟨?_, hashed_bytes_eq c1, rfl, rfl⟩
  simp only [calculate_file_hash, Bool.not_true, Bool.false_eq_true,
    if_false]
  rw [hashed_bytes_eq, hashed_bytes_eq, hhead, htail]

/-- Witness for C10: a 2MB+1 file of zero bytes and the same file with
its single middle byte changed to 7 are different contents with the
same fingerprint. -/
theorem fingerprint_head_tail_witness :
    List.replicate 2097153 (0 : Nat) ≠
      List.replicate 1048576 (0 : Nat) ++ 7 :: List.replicate 1048576 0 ∧
    calculate_file_hash true (some (List.replicate 2097153 (0 : Nat))) =
      calculate_file_hash true
        (some (List.replicate 1048576 (0 : Nat) ++
          7 :: List.replicate 1048576 0)) := by
  constructor
  · intro h
    have h2 : (List.replicate 2097153 (0 : Nat))[1048576]? =
        (List.replicate 1048576 (0 : Nat) ++
          7 :: List.replicate 1048576 0)[1048576]? := by
      rw [h]
    rw [List.getElem?_replicate, if_pos (by omega),
      List.getElem?_append_right (by rw [List.length_replicate]),
      List.length_replicate] at h2
    rw [show (1048576 : Nat) - 1048576 = 0 from by omega,
      List.getElem?_cons_zero] at h2
    have h3 := Option.some.inj h2
    omega
  · refine (fingerprint_head_tail _ _ none ?_ ?_ ?_).1
    · rw [List.length_replicate, List.length_append, List.length_cons,
        List.length_replicate]
    · rw [List.take_replicate,
        List.take_append_of_le_length (by rw [List.length_replicate]),
        List.take_replicate]
      congr 1
    · rw [List.length_replicate, List.drop_replicate]
      rw [List.length_append, List.length_cons, List.length_replicate]
      rw [show (1048576 : Nat) + (1048576 + 1) - 1024 * 1024 =
          (List.replicate 1048576 (0 : Nat)).length + 1 from by
        rw [List.length_replicate]]
      rw [List.drop_append, List.drop_succ_cons, List.drop_zero,
        List.length_replicate]

end SmartMonitor
